import Mathlib

/-!
Verification of the MathBlast multiplayer lobby subsystem.

Server model: shallow embedding of src/mathblast_server.py.  The roster
`clients` (a Python dict from socket to per-connection record, iterated in
insertion order) is modelled as an association list from an abstract socket
id to a `ClientInfo` record.  Broadcasting is modelled by a function
`fails : Sock → Bool` saying which sockets raise on send; the server pops
exactly those from the roster while iterating.  Outgoing traffic is recorded
as a trace of events (broadcast calls and direct replies).

The dict is guarded by `clients_lock`, a non-reentrant threading.Lock, and
two handler paths call lock-taking helpers while already holding it: the
ready-barrier block (lines 96-100) calls `broadcast` when the barrier
holds, and the whole `finally` cleanup (lines 125-131) calls `broadcast`
and `_serialize_players`.  Both re-acquire the held lock as their first
step, so those calls block forever before any send; the model records this
as the `hung` step outcome and the hung session outcomes.

Client model: shallow embedding of the lobby-agent part of
src/MathBlast_Universal.py (connect_to_lobby, _network_listener,
_handle_network_line, send_chat).
-/

/-- ASCII whitespace, as stripped by the Python str.strip() default and by
int() before parsing. -/
def isPySpace (c : Char) : Bool :=
  c == ' ' || c == '\t' || c == '\n' || c == '\r' || c == '\x0B' || c == '\x0C'

/-- Model of str.strip(): drop whitespace from both ends. -/
def pyStrip (s : String) : String :=
  ((s.toList.dropWhile isPySpace).reverse.dropWhile isPySpace).reverse.asString

/-- Character-list core of the startswith test: the first list is the
candidate head, the second the string searched. -/
def charsStartWith : List Char → List Char → Bool
  | [], _ => true
  | _ :: _, [] => false
  | p :: ps, c :: cs => p == c && charsStartWith ps cs

/-- Model of str.startswith(head) as used in both dispatch chains. -/
def pyStartsWith (s head : String) : Bool :=
  charsStartWith head.toList s.toList

/-- Value of a run of decimal digit characters, most significant first. -/
def digitsVal (cs : List Char) : Nat :=
  cs.foldl (fun acc c => acc * 10 + (c.toNat - 48)) 0

/-- Model of the builtin `int(str)` conversion used by the server: leading and
trailing whitespace is stripped, an optional sign is allowed, and the rest
must be a non-empty run of decimal digits; `none` models the `ValueError`
raised on any other input. -/
def pyInt (s : String) : Option Int :=
  match (pyStrip s).toList with
  | [] => none
  | c :: cs =>
    if c = '-' then
      if cs ≠ [] ∧ cs.all (fun d => d.isDigit) then some (-(digitsVal cs : Int)) else none
    else if c = '+' then
      if cs ≠ [] ∧ cs.all (fun d => d.isDigit) then some ((digitsVal cs : Int)) else none
    else
      if (c :: cs).all (fun d => d.isDigit) then some ((digitsVal (c :: cs) : Int)) else none

/-- Helper for `pySplit`: walk the characters, splitting on `sep` at most
`n` more times, with `acc` holding the reversed current field. -/
def pySplitAux (sep : Char) : List Char → Nat → List Char → List String
  | [], _, acc => [acc.reverse.asString]
  | c :: cs, n, acc =>
    if c = sep then
      match n with
      | 0 => pySplitAux sep cs 0 (c :: acc)
      | m + 1 => acc.reverse.asString :: pySplitAux sep cs m []
    else pySplitAux sep cs n (c :: acc)

/-- Model of the Python `str.split(sep, maxsplit)` call (as used with
sep `:` and maxsplit 1 or 2 in both server and client). -/
def pySplit (sep : Char) (maxsplit : Nat) (s : String) : List String :=
  pySplitAux sep s.toList maxsplit []

/-- Per-connection record kept in the server dict `clients`:
`{'name': name, 'level': lvl, 'ready': rd}` (the socket and address fields
are identification and logging data carried by the association list key). -/
structure ClientInfo where
  name : Option String
  level : Int
  ready : Int
deriving Repr, DecidableEq

/-- Abstract socket identifier (the dict key). -/
abbrev Sock := Nat

/-- The server roster: dict from socket to record, in insertion order. -/
abbrev Roster := List (Sock × ClientInfo)

/-- Record registered by the accept loop:
`{'name': None, 'level': 1, 'ready': 0}`. -/
def newClientInfo : ClientInfo := { name := none, level := 1, ready := 0 }

/-- Accept-loop registration: `clients[sock] = {...}` appends a fresh
unnamed record for the new connection. -/
def accept_register (sk : Sock) (st : Roster) : Roster :=
  st ++ [(sk, newClientInfo)]

/-- One rendered snapshot field: `f"{n},{lvl},{rd}"` with
`n = info.get('name') or ''`. -/
def playerEntry (info : ClientInfo) : String :=
  (info.name.getD "") ++ "," ++ toString info.level ++ "," ++ toString info.ready

/-- The `parts` list built by `_serialize_players`: one rendered entry per
roster record, in roster order. -/
def playerParts (st : Roster) : List String :=
  st.map (fun c => playerEntry c.2)

/-- Model of `_serialize_players`: the parts joined with semicolons. -/
def serialize_players (st : Roster) : String :=
  String.intercalate ";" (playerParts st)

/-- Python truthiness of `info.get('name')`: false for `None` and for the
empty string, true for any non-empty bound name. -/
def pyTruthyName : Option String → Bool
  | none => false
  | some s => s != ""

/-- Model of `broadcast(line, exclude_sock)` restricted to its roster
effect: the loop iterates a snapshot of the dict values; an excluded socket
is skipped, a socket whose `sendall` raises is closed and popped, every
other socket stays.  The text of the line does not influence the roster. -/
def broadcast (fails : Sock → Bool) (exclude : Option Sock) : Roster → Roster
  | [] => []
  | c :: cs =>
    if some c.1 = exclude then c :: broadcast fails exclude cs
    else if fails c.1 then broadcast fails exclude cs
    else c :: broadcast fails exclude cs

/-- JOIN update: `info['name'] = name` on the record of the sending socket
(no-op when the socket is no longer registered). -/
def setName (sk : Sock) (nm : String) (st : Roster) : Roster :=
  st.map (fun c => if c.1 = sk then (c.1, { c.2 with name := some nm }) else c)

/-- READY update: `info['ready'] = v` on the record of the sending socket. -/
def setReady (sk : Sock) (v : Int) (st : Roster) : Roster :=
  st.map (fun c => if c.1 = sk then (c.1, { c.2 with ready := v }) else c)

/-- LEVEL update: `try: info['level'] = int(lv) except: info['level'] = 1`
on the record of the sending socket. -/
def setLevelPy (sk : Sock) (lv : String) (st : Roster) : Roster :=
  st.map (fun c => if c.1 = sk then (c.1, { c.2 with level := (pyInt lv).getD 1 }) else c)

/-- The list `named = [c for c in clients.values() if c.get('name')]`. -/
def namedClients (st : Roster) : Roster :=
  st.filter (fun c => pyTruthyName c.2.name)

/-- The ready-barrier condition
`named and all(c.get('ready',0) for c in named)`. -/
def readyBarrier (st : Roster) : Bool :=
  let named := namedClients st
  !(named.isEmpty) && named.all (fun c => c.2.ready != 0)

/-- Outgoing traffic events: a call of `broadcast(line)`, or a direct
`sock.sendall` reply to one socket. -/
inductive Ev where
  | bcast (line : String)
  | send (sid : Sock) (line : String)
deriving Repr, DecidableEq

/-- Result of processing one decoded line: normal completion, an uncaught
exception (which aborts the read loop of that handler), or a deadlock — the
handler blocked forever trying to re-acquire the non-reentrant
`clients_lock` it already holds.  Each carries the roster left behind and
the events emitted before the outcome; a deadlocked call of `broadcast`
or `_serialize_players` blocks on the acquire before any send, so it emits
nothing and changes nothing. -/
inductive StepResult where
  | ok (st : Roster) (evs : List Ev)
  | exc (st : Roster) (evs : List Ev)
  | hung (st : Roster) (evs : List Ev)
deriving Repr, DecidableEq

/-- The events a step emitted, whatever its outcome. -/
def StepResult.events : StepResult → List Ev
  | .ok _ evs => evs
  | .exc _ evs => evs
  | .hung _ evs => evs

/-- Tail of the READY branch after the update (server lines 92-100):
broadcast the READY line verbatim, broadcast a fresh `LIST:` snapshot
(serialized from the roster as it stands when the f-string is evaluated),
then evaluate the ready barrier on the roster as it stands after that
broadcast — inside `with clients_lock`.  When the barrier holds, the
handler calls `broadcast('START:')` while still holding the non-reentrant
`clients_lock`; `broadcast` re-acquires that lock as its first statement,
so the thread blocks forever before any send: no `START:` is emitted, the
roster is left as it was, and the handler never proceeds. -/
def readyTail (fails : Sock → Bool) (st1 : Roster) (line : String) : StepResult :=
  let st2 := broadcast fails none st1
  let listLine := "LIST:" ++ serialize_players st2
  let st3 := broadcast fails none st2
  if readyBarrier st3 then
    .hung st3 [Ev.bcast line, Ev.bcast listLine]
  else
    .ok st3 [Ev.bcast line, Ev.bcast listLine]

/-- The READY branch of `handle_client` (server lines 83-100): split on the
first two colons; with fewer than three fields the line is dropped whole;
otherwise, when the sender is still registered, `int(rv)` is evaluated and
its `ValueError` (modelled by `pyInt rv = none`) propagates uncaught with
nothing yet broadcast; on success the ready field of the sending socket is
updated and the broadcast tail runs. -/
def readyStep (fails : Sock → Bool) (sk : Sock) (line : String) (st : Roster) : StepResult :=
  let parts := pySplit ':' 2 line
  if 3 ≤ parts.length then
    let rv := parts.getD 2 ""
    if st.any (fun c => c.1 == sk) then
      match pyInt rv with
      | none => .exc st []
      | some v => readyTail fails (setReady sk v st) line
    else readyTail fails st line
  else .ok st []

/-- The LEVEL branch of `handle_client` (server lines 103-115): with three
fields, the level of the sending socket is set to `int(lv)` with the
`ValueError` caught and replaced by 1, then a fresh `LIST:` snapshot is
broadcast; with fewer fields the line is dropped. -/
def levelStep (fails : Sock → Bool) (sk : Sock) (line : String) (st : Roster) : StepResult :=
  let parts := pySplit ':' 2 line
  if 3 ≤ parts.length then
    let lv := parts.getD 2 ""
    let st1 := setLevelPy sk lv st
    let st2 := broadcast fails none st1
    .ok st2 [Ev.bcast ("LIST:" ++ serialize_players st1)]
  else .ok st []

/-- One iteration of the command dispatch in `handle_client` on a decoded
line, in the source branch order: JOIN, CHAT, READY, LIST?, LEVEL, START?,
then the permissive passthrough that rebroadcasts unknown lines. -/
def processLine (fails : Sock → Bool) (sk : Sock) (line : String) (st : Roster) : StepResult :=
  if pyStartsWith line "JOIN:" then
    let nm := (pySplit ':' 1 line).getD 1 ""
    let st1 := setName sk nm st
    let st2 := broadcast fails none st1
    let listLine := "LIST:" ++ serialize_players st2
    let st3 := broadcast fails none st2
    .ok st3 [Ev.bcast ("JOIN:" ++ nm), Ev.bcast listLine]
  else if pyStartsWith line "CHAT:" then
    .ok (broadcast fails none st) [Ev.bcast line]
  else if pyStartsWith line "READY:" then
    readyStep fails sk line st
  else if line = "LIST?" then
    if fails sk then .exc st [] else .ok st [Ev.send sk ("LIST:" ++ serialize_players st)]
  else if pyStartsWith line "LEVEL:" then
    levelStep fails sk line st
  else if line = "START?" then
    if readyBarrier st then
      if fails sk then .exc st [] else .ok st [Ev.send sk "START:"]
    else .ok st []
  else
    .ok (broadcast fails none st) [Ev.bcast line]

/-- The `finally` block of `handle_client` (server lines 125-131), which
runs entirely inside `with clients_lock`.  The pop of the socket succeeds;
then, still holding the non-reentrant lock, the named case calls
`broadcast(f"LEAVE:...")` and every case evaluates
`broadcast(f"LIST:{_serialize_players()}")` — and both `broadcast` and
`_serialize_players` re-acquire `clients_lock` as their first step, so the
handler deadlocks before any send.  No `LEAVE:` or `LIST:` line is ever
broadcast by the cleanup; its only completed effect is the pop. -/
def disconnect (sk : Sock) (st : Roster) : Roster :=
  st.filter (fun c => !(c.1 == sk))

/-- How a handler session ends: blocked forever inside the ready barrier's
`broadcast('START:')`, or blocked forever inside the `finally` cleanup;
there is no normally-terminating exit path. -/
inductive SessionOutcome where
  | hungBarrier
  | hungCleanup
deriving Repr, DecidableEq

/-- A received line before decoding: either bytes that decode to a UTF-8
string, or bytes whose decode raises (caught, the line is skipped). -/
inductive RawLine where
  | utf8 (s : String)
  | invalid
deriving Repr, DecidableEq

/-- The read loop of one connection handler over its incoming lines:
undecodable lines are skipped; a decoded line is processed; an uncaught
exception, like end-of-stream, reaches the `finally` cleanup, which pops
the connection and then deadlocks (no further line is processed and
nothing more is emitted); the barrier deadlock freezes the handler with
its roster entry still in place.  The result is the final roster, the
total event trace, and how the session ended. -/
def runSession (fails : Sock → Bool) (sk : Sock) :
    List RawLine → Roster → Roster × List Ev × SessionOutcome
  | [], st => (disconnect sk st, [], SessionOutcome.hungCleanup)
  | RawLine.invalid :: rest, st => runSession fails sk rest st
  | RawLine.utf8 line :: rest, st =>
    match processLine fails sk line st with
    | .ok st1 evs1 =>
      let r := runSession fails sk rest st1
      (r.1, evs1 ++ r.2.1, r.2.2)
    | .exc st1 evs1 => (disconnect sk st1, evs1, SessionOutcome.hungCleanup)
    | .hung st1 evs1 => (st1, evs1, SessionOutcome.hungBarrier)

/-- The configured server port. -/
def serverPORT : Nat := 5000

/-- The bind step of the server `main` (lines 147-155): one socket is
created and `bind((HOST, PORT))` is called exactly once, with no retry
logic; `free` says which ports can currently be bound; `none` models the
`OSError` propagating out of `main` and ending the process. -/
def serverMainBind (free : Nat → Bool) : Option Nat :=
  if free serverPORT then some serverPORT else none

/-- Client lobby-agent state: the status label text, the rows of the
players tree ((name, status, level) as strings), the chat transcript as
(sender, message) pairs, and the network socket when connected. -/
structure LobbyState where
  statusText : String
  playersTree : List (String × String × String)
  chatLog : List (String × String)
  netSock : Option Nat
deriving Repr, DecidableEq

/-- Model of `add_chat_message`: append one (sender, message) line to the
transcript. -/
def add_chat_message (sender msg : String) (s : LobbyState) : LobbyState :=
  { s with chatLog := s.chatLog ++ [(sender, msg)] }

/-- The LEAVE handler loop: delete every players-tree row whose first
value equals the name. -/
def removeRows (nm : String) (rows : List (String × String × String)) :
    List (String × String × String) :=
  rows.filter (fun r => !(r.1 == nm))

/-- The READY handler loop: set the status cell of the first row whose
name matches, then break. -/
def setReadyRowFirst (nm status : String) :
    List (String × String × String) → List (String × String × String)
  | [] => []
  | r :: rs =>
    if r.1 == nm then (r.1, status, r.2.2) :: rs
    else r :: setReadyRowFirst nm status rs

/-- Model of `_handle_network_line` (client lines 1515-1559): the single
UI-thread handler every received line is dispatched to.  Its branch chain
recognizes exactly the CHAT:, JOIN:, LEAVE: and READY: line shapes; any
other line, LIST: and START: lines included, falls through every branch
and leaves the client state unchanged. -/
def _handle_network_line (line : String) (ui : LobbyState) : LobbyState :=
  if pyStartsWith line "CHAT:" then
    let parts := pySplit ':' 2 line
    if parts.length = 3 then
      add_chat_message (parts.getD 1 "") (parts.getD 2 "") ui
    else ui
  else if pyStartsWith line "JOIN:" then
    let nm := (pySplit ':' 1 line).getD 1 ""
    let ui1 := { ui with playersTree := ui.playersTree ++ [(nm, "Waiting", "1")] }
    add_chat_message "System" (nm ++ " joined the lobby") ui1
  else if pyStartsWith line "LEAVE:" then
    let nm := (pySplit ':' 1 line).getD 1 ""
    let ui1 := { ui with playersTree := removeRows nm ui.playersTree }
    add_chat_message "System" (nm ++ " left the lobby") ui1
  else if pyStartsWith line "READY:" then
    let parts := pySplit ':' 2 line
    if parts.length = 3 then
      let nm := parts.getD 1 ""
      let state := parts.getD 2 ""
      { ui with playersTree :=
          setReadyRowFirst nm (if state = "1" then "Ready" else "Waiting") ui.playersTree }
    else ui
  else ui

/-- Model of `_network_listener` (client lines 1488-1513): decode each
received line (skipping undecodable ones), dispatch each decoded line in
order to `_handle_network_line` on the UI context, and on end of stream
post the disconnect notice to the transcript. -/
def _network_listener (lines : List RawLine) (ui : LobbyState) : LobbyState :=
  let ui1 := lines.foldl
    (fun u l => match l with
      | RawLine.invalid => u
      | RawLine.utf8 s => _handle_network_line s u) ui
  add_chat_message "System" "Disconnected from lobby" ui1

/-- Model of `connect_to_lobby` (client lines 1443-1486): on a successful
connect the socket is stored, `JOIN:<name>` is sent and the status label
shows the connected text; on a failed connect (no listener within the
bounded timeout) the status label shows the offline text, the players tree
gains the local player plus the two fixed placeholder rows, the welcome
notice is appended to the transcript, nothing is sent and no socket is
stored.  The second component is the list of lines sent to the network. -/
def connect_to_lobby (connectOk : Bool) (profileName : String) (level : Int)
    (s : LobbyState) : LobbyState × List String :=
  if connectOk then
    ({ s with
        netSock := some 0
        statusText := "Connected to lobby at 127.0.0.1:5000" },
     ["JOIN:" ++ profileName])
  else
    ({ s with
        statusText := "Offline lobby (local server not running)"
        playersTree := s.playersTree ++
          [(profileName, "You", toString level),
           ("InvaderAce", "Waiting", "4"),
           ("StarGazer", "Ready", "7")]
        chatLog := s.chatLog ++ [("System", "Welcome to Space Blast Lobby! (offline)")] },
     [])

/-- Model of `send_chat` (client lines 1561-1578): the entry text is
stripped; an empty message is ignored; with a live socket the chat line is
sent (falling back to a local append when the send raises); without a
socket the message is appended directly to the local transcript and
nothing touches the network. -/
def send_chat (sendFails : Bool) (rawMsg name : String) (s : LobbyState) :
    LobbyState × List String :=
  let msg := pyStrip rawMsg
  if msg = "" then (s, [])
  else
    match s.netSock with
    | some _ =>
      if sendFails then (add_chat_message name msg s, [])
      else (s, ["CHAT:" ++ name ++ ":" ++ msg])
    | none => (add_chat_message name msg s, [])

/-! Helper lemmas. -/

theorem string_data_append (a b : String) : (a ++ b).data = a.data ++ b.data := by
  cases a; cases b; rfl

theorem string_eq_of_data (a b : String) (h : a.data = b.data) : a = b := by
  cases a; cases b; exact congrArg String.mk h

theorem entry_concat (nm : String) : nm ++ "," ++ "1" ++ "," ++ "0" = nm ++ ",1,0" := by
  apply string_eq_of_data
  simp [string_data_append]

theorem leave_line_ne_list (nm s : String) : ("LEAVE:" ++ nm) ≠ ("LIST:" ++ s) := by
  intro h
  have h2 := congrArg String.data h
  rw [string_data_append, string_data_append] at h2
  simp at h2

theorem chat_line_ne_leave (s nm : String) : ("CHAT:" ++ s) ≠ ("LEAVE:" ++ nm) := by
  intro h
  have h2 := congrArg String.data h
  rw [string_data_append, string_data_append] at h2
  simp at h2

theorem broadcast_eq_filter (fails : Sock → Bool) (st : Roster) :
    broadcast fails none st = st.filter (fun c => !(fails c.1)) := by
  induction st with
  | nil => rfl
  | cons c cs ih =>
    rw [broadcast]
    cases hf : fails c.1 <;> simp [hf, ih, List.filter_cons]

/-! Claims. -/

/-- C2 counterexample: an accepted connection that has not yet sent JOIN
does contribute an entry to the serialized snapshot — the empty-name
placeholder entry ",1,0" — so the snapshot for a roster holding only one
un-joined connection is ",1,0" rather than empty, and a joined Alice next
to an un-joined connection serializes as "Alice,1,0;,1,0". -/
theorem c2_snapshot_counterexample :
    serialize_players [(0, newClientInfo)] = ",1,0" ∧
    serialize_players [(0, ⟨some "Alice", 1, 0⟩), (1, newClientInfo)] = "Alice,1,0;,1,0" :=
  ⟨rfl, rfl⟩

/-- C2 amended: every connection registered with the server contributes
exactly one entry to the serialized snapshot, in roster order; an accepted
connection that has not yet sent JOIN contributes the empty-name
placeholder entry ",1,0"; after a JOIN binding name nm its entry carries
nm; popping the connection restores the previous parts list. -/
theorem playerParts_setName_append (st : Roster) (sk : Sock) (nm : String)
    (hsk : ∀ c ∈ st, c.1 ≠ sk) :
    playerParts (setName sk nm (st ++ [(sk, newClientInfo)])) =
      playerParts st ++ [nm ++ ",1,0"] := by
  induction st with
  | nil =>
    simp [playerParts, setName, playerEntry, newClientInfo]
    exact entry_concat nm
  | cons c cs ih =>
    have hc : c.1 ≠ sk := hsk c (by simp)
    have hrest : ∀ x ∈ cs, x.1 ≠ sk := fun x hx => hsk x (by simp [hx])
    simp only [List.cons_append, setName, List.map_cons, playerParts, if_neg hc] at ih ⊢
    rw [ih hrest]

theorem c2_snapshot_amended (st : Roster) (sk : Sock) (hsk : ∀ c ∈ st, c.1 ≠ sk) :
    playerParts (accept_register sk st) = playerParts st ++ [",1,0"] ∧
    (playerParts st).length = st.length ∧
    (∀ nm, playerParts (setName sk nm (accept_register sk st)) =
      playerParts st ++ [nm ++ ",1,0"]) ∧
    playerParts ((accept_register sk st).filter (fun c => !(c.1 == sk))) = playerParts st := by
  refine ⟨?_, ?_, ?_, ?_⟩
  · unfold playerParts accept_register
    rw [List.map_append]
    rfl
  · simp [playerParts]
  · intro nm
    exact playerParts_setName_append st sk nm hsk
  · have h1 : (st ++ [(sk, newClientInfo)]).filter (fun c => !(c.1 == sk)) = st := by
      rw [List.filter_append]
      have h2 : st.filter (fun c => !(c.1 == sk)) = st := by
        apply List.filter_eq_self.mpr
        intro a ha
        simpa using hsk a ha
      simp [h2]
    rw [accept_register, h1]

/-- C2 witness: the amended snapshot facts at a concrete roster. -/
theorem c2_snapshot_amended_witness :
    playerParts (accept_register 3 [(7, ⟨some "Alice", 2, 1⟩)]) =
      playerParts [(7, ⟨some "Alice", 2, 1⟩)] ++ [",1,0"] ∧
    (playerParts [(7, ⟨some "Alice", 2, 1⟩)]).length =
      ([(7, ⟨some "Alice", 2, 1⟩)] : Roster).length ∧
    (∀ nm, playerParts (setName 3 nm (accept_register 3 [(7, ⟨some "Alice", 2, 1⟩)])) =
      playerParts [(7, ⟨some "Alice", 2, 1⟩)] ++ [nm ++ ",1,0"]) ∧
    playerParts ((accept_register 3 [(7, ⟨some "Alice", 2, 1⟩)]).filter
        (fun c => !(c.1 == 3))) = playerParts [(7, ⟨some "Alice", 2, 1⟩)] :=
  c2_snapshot_amended [(7, ⟨some "Alice", 2, 1⟩)] 3 (by decide)

/-- C6 counterexample: the client handler leaves the client state unchanged
on a START: line and on a LIST: snapshot line, at a concrete state — there
is no client-side handling path for these two server line shapes. -/
theorem c6_dispatch_counterexample :
    _handle_network_line "START:" ⟨"", [], [], none⟩ = ⟨"", [], [], none⟩ ∧
    _handle_network_line "LIST:Alice,1,0" ⟨"", [("Alice", "Waiting", "1")], [], none⟩ =
      ⟨"", [("Alice", "Waiting", "1")], [], none⟩ :=
  ⟨rfl, rfl⟩

/-- C6 amended: every line received by the background reader is dispatched
to the single UI-thread handler, which has handling paths updating client
state only for the JOIN:, LEAVE:, CHAT: and READY: line shapes; LIST: and
START: lines (and anything else) leave the client state unchanged. -/
theorem c6_dispatch_amended (ui : LobbyState) :
    _handle_network_line "START:" ui = ui ∧
    _handle_network_line "LIST:Alice,4,1" ui = ui ∧
    _handle_network_line "CHAT:Bob:hi" ui = add_chat_message "Bob" "hi" ui ∧
    _handle_network_line "JOIN:Bob" ui =
      add_chat_message "System" "Bob joined the lobby"
        { ui with playersTree := ui.playersTree ++ [("Bob", "Waiting", "1")] } ∧
    _handle_network_line "LEAVE:Bob" ui =
      add_chat_message "System" "Bob left the lobby"
        { ui with playersTree := removeRows "Bob" ui.playersTree } ∧
    _handle_network_line "READY:Bob:1" ui =
      { ui with playersTree := setReadyRowFirst "Bob" "Ready" ui.playersTree } ∧
    _network_listener [RawLine.utf8 "START:"] ui =
      add_chat_message "System" "Disconnected from lobby" ui :=
  ⟨rfl, rfl, rfl, rfl, rfl, rfl, rfl⟩

/-- C7 counterexample: with the configured port 5000 busy and port 5001
free, the server bind step yields `none` (the bind exception ends the
process); in particular it does not retry and bind the next port. -/
theorem c7_bind_counterexample :
    serverMainBind (fun p => !(p == 5000)) = none ∧
    ((fun p : Nat => !(p == 5000)) 5001 = true) ∧
    serverMainBind (fun p => !(p == 5000)) ≠ some 5001 :=
  ⟨rfl, rfl, by decide⟩

/-- C7 amended: the server binds exactly once, on the configured port; when
that port cannot be bound the bind exception propagates out of main and the
process ends — there is no retry on any other port. -/
theorem c7_bind_amended (free : Nat → Bool) :
    (free 5000 = false → serverMainBind free = none) ∧
    (∀ p : Nat, serverMainBind free = some p → p = 5000) := by
  constructor
  · intro h
    simp [serverMainBind, serverPORT, h]
  · intro p hp
    unfold serverMainBind serverPORT at hp
    by_cases h : free 5000 = true
    · rw [if_pos h] at hp
      exact (Option.some.inj hp).symm
    · rw [if_neg h] at hp
      simp at hp

/-- C7 witness: the amended bind facts at concrete availability maps. -/
theorem c7_bind_amended_witness :
    serverMainBind (fun _ => false) = none ∧ (5000 : Nat) = 5000 :=
  ⟨(c7_bind_amended (fun _ => false)).1 rfl, (c7_bind_amended (fun _ => true)).2 5000 rfl⟩

/-- C3 counterexample: a READY line whose ready field is not a valid
integer is not silently dropped — the int() exception aborts the handler
and unwinds to the finally cleanup, which pops the connection and then
deadlocks re-acquiring clients_lock, so the session ends hung with an
empty event trace and the following CHAT line of the same connection is
never processed. -/
theorem c3_malformed_counterexample :
    runSession (fun _ => false) 1 [RawLine.utf8 "READY:a:x", RawLine.utf8 "CHAT:a:hi"]
        [(1, ⟨some "a", 1, 0⟩)] =
      ([], [], SessionOutcome.hungCleanup) := by
  decide

/-- C3 amended: lines that fail UTF-8 decoding are silently skipped and
processing continues; a READY line with fewer than three fields is dropped
whole with no event emitted; but a READY line whose ready field is not a
valid integer raises out of the handler with no error sent and no further
line processed, and the finally cleanup then pops the connection and
deadlocks re-acquiring clients_lock, so no LEAVE: or LIST: is broadcast
and the handler hangs. -/
theorem c3_malformed_amended (fails : Sock → Bool) (sk : Sock) (st : Roster) :
    (∀ rest, runSession fails sk (RawLine.invalid :: rest) st = runSession fails sk rest st) ∧
    (∀ line, (pySplit ':' 2 line).length < 3 → readyStep fails sk line st = .ok st []) ∧
    (∀ line, st.any (fun c => c.1 == sk) = true →
      3 ≤ (pySplit ':' 2 line).length →
      pyInt ((pySplit ':' 2 line).getD 2 "") = none →
      readyStep fails sk line st = .exc st []) ∧
    (∀ line rest st1 evs1, processLine fails sk line st = .exc st1 evs1 →
      runSession fails sk (RawLine.utf8 line :: rest) st =
        (disconnect sk st1, evs1, SessionOutcome.hungCleanup)) := by
  refine ⟨fun rest => rfl, ?_, ?_, ?_⟩
  · intro line hlen
    simp [readyStep, Nat.not_le.mpr hlen]
  · intro line hpres hlen hbad
    simp only [readyStep]
    rw [if_pos hlen, if_pos hpres, hbad]
  · intro line rest st1 evs1 h
    simp only [runSession]
    rw [h]

/-- C3 witness: the amended facts at concrete lines and rosters. -/
theorem c3_malformed_amended_witness :
    (runSession (fun _ => false) 1 [RawLine.invalid] [] = runSession (fun _ => false) 1 [] []) ∧
    readyStep (fun _ => false) 1 "READY:a" [] = .ok [] [] ∧
    readyStep (fun _ => false) 1 "READY:a:x" [(1, ⟨some "a", 1, 0⟩)] =
      .exc [(1, ⟨some "a", 1, 0⟩)] [] ∧
    runSession (fun _ => false) 1 [RawLine.utf8 "READY:a:x"] [(1, ⟨some "a", 1, 0⟩)] =
      (disconnect 1 [(1, ⟨some "a", 1, 0⟩)], [], SessionOutcome.hungCleanup) := by
  refine ⟨(c3_malformed_amended (fun _ => false) 1 []).1 [],
    (c3_malformed_amended (fun _ => false) 1 []).2.1 "READY:a" (by decide),
    (c3_malformed_amended (fun _ => false) 1 [(1, ⟨some "a", 1, 0⟩)]).2.2.1 "READY:a:x"
      (by decide) (by decide) (by decide),
    (c3_malformed_amended (fun _ => false) 1 [(1, ⟨some "a", 1, 0⟩)]).2.2.2 "READY:a:x"
      [] [(1, ⟨some "a", 1, 0⟩)] [] (by decide)⟩

/-- C4 counterexample: connection 1 is named a, connection 2 is named b; the
line READY:b:1 arriving on connection 1 updates the readyFlag of a (the
sender), not of b as the claim requires — b's flag stays 0. -/
theorem c4_ready_target_counterexample :
    processLine (fun _ => false) 1 "READY:b:1"
        [(1, ⟨some "a", 1, 0⟩), (2, ⟨some "b", 1, 0⟩)] =
      .ok [(1, ⟨some "a", 1, 1⟩), (2, ⟨some "b", 1, 0⟩)]
        [Ev.bcast "READY:b:1", Ev.bcast "LIST:a,1,1;b,1,0"] := by
  decide

/-- C4 amended: for a well-formed READY line from a registered connection,
the server updates the readyFlag of the sending connection (the name field
of the line is not used to choose the record), then broadcasts the READY
line verbatim, then a fresh LIST: snapshot, and only then evaluates the
ready barrier; when the barrier holds the handler deadlocks calling
broadcast(START:) while still holding clients_lock — no START: event and
no completion — and otherwise the step completes normally. -/
theorem c4_ready_order_amended (fails : Sock → Bool) (sk : Sock) (line : String)
    (v : Int) (st : Roster)
    (h3 : 3 ≤ (pySplit ':' 2 line).length)
    (hpres : st.any (fun c => c.1 == sk) = true)
    (hv : pyInt ((pySplit ':' 2 line).getD 2 "") = some v) :
    readyStep fails sk line st = readyTail fails (setReady sk v st) line ∧
    readyTail fails (setReady sk v st) line =
      (if readyBarrier (broadcast fails none (broadcast fails none (setReady sk v st)))
        then StepResult.hung
          (broadcast fails none (broadcast fails none (setReady sk v st)))
          [Ev.bcast line,
           Ev.bcast ("LIST:" ++ serialize_players (broadcast fails none (setReady sk v st)))]
        else StepResult.ok
          (broadcast fails none (broadcast fails none (setReady sk v st)))
          [Ev.bcast line,
           Ev.bcast ("LIST:" ++ serialize_players (broadcast fails none (setReady sk v st)))]) := by
  constructor
  · simp only [readyStep]
    rw [if_pos h3, if_pos hpres, hv]
  · unfold readyTail
    cases hb : readyBarrier (broadcast fails none (broadcast fails none (setReady sk v st))) <;>
      simp [hb]

/-- C4 witness: the amended READY facts at the concrete two-client roster. -/
theorem c4_ready_order_amended_witness :
    readyStep (fun _ => false) 1 "READY:b:1" [(1, ⟨some "a", 1, 0⟩), (2, ⟨some "b", 1, 0⟩)] =
      readyTail (fun _ => false)
        (setReady 1 1 [(1, ⟨some "a", 1, 0⟩), (2, ⟨some "b", 1, 0⟩)]) "READY:b:1" ∧
    readyTail (fun _ => false)
        (setReady 1 1 [(1, ⟨some "a", 1, 0⟩), (2, ⟨some "b", 1, 0⟩)]) "READY:b:1" =
      (if readyBarrier (broadcast (fun _ => false) none (broadcast (fun _ => false) none
          (setReady 1 1 [(1, ⟨some "a", 1, 0⟩), (2, ⟨some "b", 1, 0⟩)])))
        then StepResult.hung
          (broadcast (fun _ => false) none (broadcast (fun _ => false) none
            (setReady 1 1 [(1, ⟨some "a", 1, 0⟩), (2, ⟨some "b", 1, 0⟩)])))
          [Ev.bcast "READY:b:1",
           Ev.bcast ("LIST:" ++ serialize_players (broadcast (fun _ => false) none
             (setReady 1 1 [(1, ⟨some "a", 1, 0⟩), (2, ⟨some "b", 1, 0⟩)])))]
        else StepResult.ok
          (broadcast (fun _ => false) none (broadcast (fun _ => false) none
            (setReady 1 1 [(1, ⟨some "a", 1, 0⟩), (2, ⟨some "b", 1, 0⟩)])))
          [Ev.bcast "READY:b:1",
           Ev.bcast ("LIST:" ++ serialize_players (broadcast (fun _ => false) none
             (setReady 1 1 [(1, ⟨some "a", 1, 0⟩), (2, ⟨some "b", 1, 0⟩)])))]) :=
  c4_ready_order_amended (fun _ => false) 1 "READY:b:1" 1
    [(1, ⟨some "a", 1, 0⟩), (2, ⟨some "b", 1, 0⟩)] (by decide) (by decide) (by decide)

/-- C10: a LEVEL line with three fields whose value field is not a valid
integer sets the sending connection's level to 1 (the except branch), no
exception propagates (the step returns normally), and a fresh LIST:
snapshot is still broadcast. -/
theorem c10_level_invalid (fails : Sock → Bool) (sk : Sock) (line : String) (st : Roster)
    (h3 : 3 ≤ (pySplit ':' 2 line).length)
    (hbad : pyInt ((pySplit ':' 2 line).getD 2 "") = none) :
    levelStep fails sk line st =
      .ok (broadcast fails none
            (st.map (fun c => if c.1 = sk then (c.1, { c.2 with level := 1 }) else c)))
        [Ev.bcast ("LIST:" ++ serialize_players
            (st.map (fun c => if c.1 = sk then (c.1, { c.2 with level := 1 }) else c)))] := by
  have hset : setLevelPy sk ((pySplit ':' 2 line).getD 2 "") st =
      st.map (fun c => if c.1 = sk then (c.1, { c.2 with level := 1 }) else c) := by
    unfold setLevelPy
    rw [hbad]
    rfl
  simp only [levelStep]
  rw [if_pos h3, hset]

/-- C10 witness: the LEVEL facts at a concrete roster, where the previous
level 3 is overwritten by 1. -/
theorem c10_level_invalid_witness :
    levelStep (fun _ => false) 1 "LEVEL:a:x" [(1, ⟨some "a", 3, 0⟩)] =
      .ok (broadcast (fun _ => false) none
            (([(1, ⟨some "a", 3, 0⟩)] : Roster).map
              (fun c => if c.1 = 1 then (c.1, { c.2 with level := 1 }) else c)))
        [Ev.bcast ("LIST:" ++ serialize_players
            (([(1, ⟨some "a", 3, 0⟩)] : Roster).map
              (fun c => if c.1 = 1 then (c.1, { c.2 with level := 1 }) else c)))] :=
  c10_level_invalid (fun _ => false) 1 "LEVEL:a:x" [(1, ⟨some "a", 3, 0⟩)]
    (by decide) (by decide)

/-- C5 fails on the code: when the named Carol disconnects at
end-of-stream, the finally block pops her entry under clients_lock and then
deadlocks re-acquiring that non-reentrant lock inside broadcast, so the
session ends hung in cleanup with an empty event trace — no LEAVE:Carol
and no fresh LIST: is ever broadcast; an unnamed disconnect pops and then
deadlocks the same way inside _serialize_players, again with no broadcast.
Only the pop itself completes. -/
theorem c5_disconnect_deadlock :
    runSession (fun _ => false) 1 [] [(1, ⟨some "Carol", 2, 1⟩), (2, ⟨none, 1, 0⟩)] =
      ([(2, ⟨none, 1, 0⟩)], [], SessionOutcome.hungCleanup) ∧
    runSession (fun _ => false) 2 [] [(2, ⟨none, 1, 0⟩)] =
      ([], [], SessionOutcome.hungCleanup) ∧
    disconnect 1 [(1, ⟨some "Carol", 2, 1⟩), (2, ⟨none, 1, 0⟩)] = [(2, ⟨none, 1, 0⟩)] := by
  exact ⟨by decide, by decide, by decide⟩

/-- C9: a connection whose send raises during a broadcast is removed from
the roster by that same broadcast call (and only failing, non-excluded
sockets are removed); and the whole READY broadcast sequence emits no
LEAVE:<name> line, so the removal is silent — later snapshots simply lack
the dropped participant and clients never receive a LEAVE for it. -/
theorem c9_send_failure_silent (fails : Sock → Bool) (st : Roster) (line : String)
    (hl : ∀ nm, line ≠ "LEAVE:" ++ nm) :
    broadcast fails none st = st.filter (fun c => !(fails c.1)) ∧
    (∀ nm, Ev.bcast ("LEAVE:" ++ nm) ∉ (readyTail fails st line).events) := by
  refine ⟨broadcast_eq_filter fails st, ?_⟩
  intro nm
  unfold readyTail
  cases hb : readyBarrier (broadcast fails none (broadcast fails none st)) <;>
    simp [hb, StepResult.events] <;>
    exact ⟨fun h => hl nm h.symm, fun h => leave_line_ne_list nm _ h⟩

/-- C9 witness: the silent-removal facts with socket 2 failing during the
READY broadcast sequence of a CHAT-shaped line. -/
theorem c9_send_failure_silent_witness :
    broadcast (fun n => n == 2) none [(1, ⟨some "a", 1, 1⟩), (2, ⟨some "b", 1, 1⟩)] =
      ([(1, ⟨some "a", 1, 1⟩), (2, ⟨some "b", 1, 1⟩)] : Roster).filter
        (fun c => !((fun n : Sock => n == 2) c.1)) ∧
    (∀ nm, Ev.bcast ("LEAVE:" ++ nm) ∉
      (readyTail (fun n => n == 2) [(1, ⟨some "a", 1, 1⟩), (2, ⟨some "b", 1, 1⟩)]
        "CHAT:a:hi").events) :=
  c9_send_failure_silent (fun n => n == 2) [(1, ⟨some "a", 1, 1⟩), (2, ⟨some "b", 1, 1⟩)]
    "CHAT:a:hi" (fun nm => chat_line_ne_leave "a:hi" nm)

/-- C1 fails on the code: with the single client a ready, the ready
barrier holds on the roster at evaluation time, yet the READY tail ends
hung with only the READY and LIST broadcasts in its trace — the handler
calls broadcast(START:) while still holding the non-reentrant clients_lock
and blocks forever before any send, so START: is never broadcast to
anyone; the full READY step from ready 0 shows the same. -/
theorem c1_ready_barrier_deadlock :
    readyBarrier [(1, ⟨some "a", 1, 1⟩)] = true ∧
    readyTail (fun _ => false) [(1, ⟨some "a", 1, 1⟩)] "READY:a:1" =
      .hung [(1, ⟨some "a", 1, 1⟩)] [Ev.bcast "READY:a:1", Ev.bcast "LIST:a,1,1"] ∧
    processLine (fun _ => false) 1 "READY:a:1" [(1, ⟨some "a", 1, 0⟩)] =
      .hung [(1, ⟨some "a", 1, 1⟩)] [Ev.bcast "READY:a:1", Ev.bcast "LIST:a,1,1"] := by
  exact ⟨by decide, by decide, by decide⟩

/-- C8: a failed connect attempt sends nothing, sets the offline status
text, extends the players tree with the local player plus the two fixed
placeholder entries, leaves the socket unset, and every later chat send in
that state appends the stripped message directly to the local transcript
while sending nothing to the network. -/
theorem c8_offline_fallback (profileName name rawMsg : String) (lvl : Int) (s : LobbyState)
    (hsock : s.netSock = none) (hmsg : pyStrip rawMsg ≠ "") :
    (connect_to_lobby false profileName lvl s).2 = [] ∧
    (connect_to_lobby false profileName lvl s).1.statusText =
      "Offline lobby (local server not running)" ∧
    (connect_to_lobby false profileName lvl s).1.playersTree =
      s.playersTree ++ [(profileName, "You", toString lvl),
        ("InvaderAce", "Waiting", "4"), ("StarGazer", "Ready", "7")] ∧
    (connect_to_lobby false profileName lvl s).1.netSock = none ∧
    (∀ sendFails : Bool,
      send_chat sendFails rawMsg name (connect_to_lobby false profileName lvl s).1 =
        (add_chat_message name (pyStrip rawMsg) (connect_to_lobby false profileName lvl s).1,
         [])) := by
  refine ⟨rfl, rfl, rfl, hsock, ?_⟩
  intro sendFails
  have hns : (connect_to_lobby false profileName lvl s).1.netSock = none := hsock
  simp only [send_chat]
  rw [if_neg hmsg, hns]

/-- C8 witness: the offline-fallback facts at a concrete client state. -/
theorem c8_offline_fallback_witness :
    (connect_to_lobby false "Me" 3 ⟨"", [], [], none⟩).2 = [] ∧
    (connect_to_lobby false "Me" 3 ⟨"", [], [], none⟩).1.statusText =
      "Offline lobby (local server not running)" ∧
    (connect_to_lobby false "Me" 3 ⟨"", [], [], none⟩).1.playersTree =
      ([] : List (String × String × String)) ++ [("Me", "You", toString (3 : Int)),
        ("InvaderAce", "Waiting", "4"), ("StarGazer", "Ready", "7")] ∧
    (connect_to_lobby false "Me" 3 ⟨"", [], [], none⟩).1.netSock = none ∧
    (∀ sendFails : Bool,
      send_chat sendFails "  hi  " "Me" (connect_to_lobby false "Me" 3 ⟨"", [], [], none⟩).1 =
        (add_chat_message "Me" (pyStrip "  hi  ")
          (connect_to_lobby false "Me" 3 ⟨"", [], [], none⟩).1, [])) :=
  c8_offline_fallback "Me" "Me" "  hi  " 3 ⟨"", [], [], none⟩ rfl (by decide)
